import Mathlib

/-!
Shallow embedding of the Veo3 animation prompter core (src/src/App.js):
the entity model, the deterministic prompt composition function
(generateIndonesianPromptText), the store operations the claims touch
(the form-clearing save path handleSaveCharacter, the character deselect
handler, handleVisualStyleChange, handleCharacterActionChange) and the
suggestion client (suggestCharacterAction) with its network outcome
abstracted into a sum type.

JavaScript field truthiness: every guard in the source has the form
if (field) where field is a string that is either missing (undefined)
or a string; undefined and the empty string are both falsy and behave
identically in every guard, so optional string fields are modelled as
plain Strings with the empty string standing for an absent value.
-/

namespace Veo3

/-- Human attribute variant (humanDetails form object). faceShape and
height exist on the form but are never read by the composer. -/
structure HumanDetails where
  gender : String := ""
  faceShape : String := ""
  skinColor : String := ""
  bodyTypePosture : String := ""
  age : String := ""
  height : String := ""
  clothingAccessories : String := ""
  additionalDetail : String := ""
deriving Repr, DecidableEq

/-- Four-legged animal attribute variant (animal4Details form object). -/
structure Animal4Details where
  animalType : String := ""
  clothingAccessories : String := ""
deriving Repr, DecidableEq

/-- Two-legged animal attribute variant (animal2Details form object).
noseShape, faceFeature and earFeature exist on the form but are never
read by the composer. -/
structure Animal2Details where
  animalType : String := ""
  gender : String := ""
  age : String := ""
  bodyShapePosture : String := ""
  noseShape : String := ""
  faceFeature : String := ""
  earFeature : String := ""
  furCharacteristic : String := ""
  furColors : String := ""
  clothingAccessories : String := ""
deriving Repr, DecidableEq

/-- The per-kind details payload. In the source char.type is a string
discriminant (human | animal4 | animal2 | fantasy) and
char.details is the matching loose object (a plain string for fantasy);
handleSaveCharacter always pairs the discriminant with the matching
form object, so the pair is modelled as a tagged union. -/
inductive CharDetails where
  | human (d : HumanDetails)
  | animal4 (d : Animal4Details)
  | animal2 (d : Animal2Details)
  | fantasy (text : String)
deriving Repr, DecidableEq

/-- A committed character (element of savedCharacters). -/
structure Character where
  id : String
  name : String
  details : CharDetails
deriving Repr, DecidableEq

/-- One dialogue line: embedded lines carry type and sentence (and an
optional targetCharId once set); empty string = unset. -/
structure DialogueLine where
  type : String := ""
  sentence : String := ""
  targetCharId : String := ""
deriving Repr, DecidableEq

/-- Element of the characterActions list: at most one per charId. -/
structure CharacterAction where
  charId : String
  action : String := ""
  isMain : Bool := false
  dialogueLines : List DialogueLine := []
deriving Repr, DecidableEq

/-- Element of the global spokenDialogue list. -/
structure SpokenDialogue where
  charId : String := ""
  type : String := ""
  sentence : String := ""
  targetCharId : String := ""
deriving Repr, DecidableEq

/-- dropdownData.animalAge: (label, value) pairs; the composer looks an
entry up by its value field. -/
def animalAge : List (String × String) :=
  [ ("Bayi (0–2 tahun)", "baby-like, tiny proportions, big eyes, oversized head"),
    ("Balita (3–5 tahun)", "toddler-style, playful and chubby, short legs"),
    ("Anak Kecil (6–8 tahun)", "childlike, energetic, round face, cheerful"),
    ("Pra-Remaja (9–12 tahun)", "youthful, slightly mischievous, small and lanky"),
    ("Remaja Awal (13–15 tahun)", "awkward teen, slim build, growing up phase"),
    ("Remaja (16–18 tahun)", "confident teenager, casual style, expressive"),
    ("Dewasa Muda (19–30 tahun)", "young adult, well-proportioned, stylish"),
    ("Dewasa (31–50 tahun)", "mature character, balanced, calm expression"),
    ("Lansia (50+ tahun)", "elderly, gray fur, wrinkles, gentle demeanor"),
    ("Karakter Tua & Bijak (Fabel)", "ancient creature, long beard, wise eyes, walking cane") ]

/-- dropdownData.cameraMotion: (en, id) label pairs; the store holds the
en key and the composer renders the id label. -/
def cameraMotionTable : List (String × String) :=
  [ ("Static Shot", "Bidikan Statis"), ("Pan Left", "Geser Kiri"),
    ("Pan Right", "Geser Kanan"), ("Tilt Up", "Miring ke Atas"),
    ("Tilt Down", "Miring ke Bawah"), ("Zoom In", "Perbesar"),
    ("Zoom Out", "Perkecil"), ("Dolly In", "Gerakan Dolly Masuk"),
    ("Dolly Out", "Gerakan Dolly Keluar"), ("Dolly Left", "Gerakan Dolly Kiri"),
    ("Dolly Right", "Gerakan Dolly Kanan"), ("Pedestal Up", "Angkat Kamera ke Atas"),
    ("Pedestal Down", "Turunkan Kamera ke Bawah"), ("Truck Left", "Gerakan Truk Kiri"),
    ("Truck Right", "Gerakan Truk Kanan"), ("Arc Left", "Busur Kiri"),
    ("Arc Right", "Busur Kanan"), ("Whip Pan", "Geser Cepat"),
    ("Crash Zoom", "Perbesar Mendadak"), ("Bullet Time", "Waktu Peluru"),
    ("FPV Drone", "Drone Sudut Pandang Orang Pertama"),
    ("Aerial Perspective", "Perspektif Udara"), ("Tracking Shot", "Bidikan Mengikuti"),
    ("360 Orbit", "Orbit 360 Derajat"), ("Crane Up", "Angkat Derek ke Atas"),
    ("Crane Down", "Turunkan Derek ke Bawah"), ("Dolly Zoom", "Efek Vertigo"),
    ("Robo Arm", "Lengan Robot"), ("Super Dolly In", "Gerakan Dolly Sangat Dekat"),
    ("Focus Change", "Perubahan Fokus"), ("Through Object", "Melalui Objek"),
    ("Lazy Susan", "Putaran Lambat"), ("Action Run", "Lari Aksi"),
    ("Handheld", "Genggam Tangan"), ("Dutch Angle", "Sudut Belanda"),
    ("Car Grip", "Genggam Mobil"), ("Hyperlapse", "Hiperlapse"),
    ("Low Shutter", "Rana Lambat"), ("Fisheye", "Mata Ikan") ]

/-- The application state the claims range over: the entity store
(characters, actions, expressions, scene attributes, spoken dialogue),
the transient animal2 form object (read by the composer in the animal2
age lookup), and the per-character suggestion loading flags. The
expressions object and the loading-flag object are association lists
keyed by charId, mirroring the plain objects of the source. -/
structure AppState where
  savedCharacters : List Character := []
  selectedCharactersForActions : List String := []
  characterActions : List CharacterAction := []
  expressions : List (String × String) := []
  location : String := ""
  timeOfDay : String := ""
  cameraMotion : String := ""
  lighting : String := ""
  selectedVisualStyles : List String := []
  videoMood : String := ""
  soundMusic : String := ""
  spokenDialogue : List SpokenDialogue := []
  additionalDetails : String := ""
  animal2Details : Animal2Details := {}
  isLoadingActionSuggestion : List (String × Bool) := []
  characterName : String := ""
  characterType : String := ""
  humanDetails : HumanDetails := {}
  animal4Details : Animal4Details := {}
  fantasyDetails : String := ""
deriving Repr, DecidableEq

/-- Association-list lookup, i.e. reading obj[key] on a plain object. -/
def lookupStr (l : List (String × String)) (k : String) : Option String :=
  (l.find? (fun p => p.1 == k)).map (fun p => p.2)

/-- savedCharacters.find(sc => sc.id === charId). -/
def findChar (chars : List Character) (charId : String) : Option Character :=
  chars.find? (fun sc => sc.id == charId)

/-- The toLowerCase() calls of the source, modelled per character via
the character-level case mapping (all strings the program renders are
covered by the ASCII mapping). -/
def jsToLower (s : String) : String :=
  String.mk (s.data.map Char.toLower)

/-- The trim() call of the source: strip whitespace from both ends. -/
def jsTrim (s : String) : String :=
  String.mk (((s.data.dropWhile Char.isWhitespace).reverse.dropWhile Char.isWhitespace).reverse)

/-- The names pushed into the main-character callout: characterActions
filtered to isMain, mapped to the name of the found character, with
.filter(Boolean) dropping both unresolved lookups (undefined) and empty
names. -/
def mainCharacterNames (st : AppState) : List String :=
  (((st.characterActions.filter (fun ca => ca.isMain)).filterMap
      (fun ca => (findChar st.savedCharacters ca.charId).map (fun sc => sc.name)))).filter
    (fun n => n != "")

/-- Step 1 of the composer: the main-character callout sentence, pushed
only when the name list is non-empty (and only reached when
savedCharacters is non-empty; the caller guards that). -/
def mainCalloutItems (st : AppState) : List String :=
  if st.savedCharacters.isEmpty then [] else
    let names := mainCharacterNames st
    if names.isEmpty then [] else
      ["Karakter utama adalah " ++ String.intercalate " dan " names ++ "."]

/-- The per-character introduction sentence (the charDesc switch). The
animal2 branch looks the age descriptor up by the TRANSIENT form field
animal2Details.age, not by the saved details.age of the character — a
faithful rendering of line 667 of the source. -/
def charIntro (formAnimal2Age : String) (ch : Character) : String :=
  let article := match ch.details with
    | CharDetails.human _ => "seorang"
    | _ => "seekor"
  let body := match ch.details with
    | CharDetails.human d =>
        "manusia " ++ (if d.gender != "" then jsToLower d.gender else "")
        ++ (if d.age != "" then " berusia " ++ jsToLower d.age else "")
        ++ (if d.skinColor != "" then " dengan kulit " ++ jsToLower d.skinColor else "")
        ++ (if d.bodyTypePosture != "" then " berbadan " ++ jsToLower d.bodyTypePosture else "")
        ++ (if d.clothingAccessories != "" then " mengenakan " ++ jsToLower d.clothingAccessories else "")
        ++ (if d.additionalDetail != "" then ", " ++ jsToLower d.additionalDetail else "")
    | CharDetails.animal4 d =>
        "hewan " ++ (if d.animalType != "" then jsToLower d.animalType else "")
        ++ (if d.clothingAccessories != "" then " mengenakan " ++ jsToLower d.clothingAccessories else "")
    | CharDetails.animal2 d =>
        "hewan " ++ (if d.animalType != "" then jsToLower d.animalType else "")
        ++ " berjalan dengan dua kaki"
        ++ (if d.gender != "" then " berjenis kelamin " ++ jsToLower d.gender else "")
        ++ (match animalAge.find? (fun opt => opt.2 == formAnimal2Age) with
            | some opt => " (" ++ opt.2 ++ ")"
            | none => "")
        ++ (if d.bodyShapePosture != "" then " berbadan " ++ jsToLower d.bodyShapePosture else "")
        ++ (if d.furColors != "" then " dengan bulu " ++ jsToLower d.furColors else "")
        ++ (if d.furCharacteristic != "" then " yang " ++ jsToLower d.furCharacteristic else "")
        ++ (if d.clothingAccessories != "" then " mengenakan " ++ jsToLower d.clothingAccessories else "")
    | CharDetails.fantasy text =>
        "makhluk fantasi. " ++ (if text != "" then jsToLower text else "")
  ch.name ++ " adalah " ++ article ++ " " ++ body ++ "."

/-- Step 2 of the composer: one introduction sentence per saved
character, in insertion order. In the source steps 1 and 2 sit inside a
single if (savedCharacters.length > 0) block; the guard is repeated
here on each half, which is extensionally the same list. -/
def introItems (st : AppState) : List String :=
  if st.savedCharacters.isEmpty then []
  else st.savedCharacters.map (charIntro st.animal2Details.age)

/-- The quoted line pushed for one embedded dialogue line: skipped when
the sentence is empty; the verb is bertanya for the question type
and menjawab for every other type. -/
def embeddedDialogueFragment (name : String) (line : DialogueLine) : Option String :=
  if line.sentence != "" then
    some (name ++ " " ++ (if line.type == "Ask a question" then "bertanya" else "menjawab")
      ++ ": \"" ++ line.sentence ++ "\"")
  else none

/-- Step 3 of the composer: per CharacterAction (in insertion order),
when its charId resolves, the action sentence with the optional
expression suffix, followed by the embedded dialogue lines; an entry
whose charId does not resolve contributes nothing. -/
def characterActionItems (st : AppState) : List String :=
  st.characterActions.flatMap (fun ca =>
    match findChar st.savedCharacters ca.charId with
    | none => []
    | some character =>
      let actionDesc := character.name ++ " sedang " ++ jsToLower ca.action
      let actionDesc := match lookupStr st.expressions ca.charId with
        | some e => if e != "" then actionDesc ++ " dengan ekspresi " ++ jsToLower e else actionDesc
        | none => actionDesc
      (actionDesc ++ ".") :: ca.dialogueLines.filterMap (embeddedDialogueFragment character.name))

/-- Step 4 of the composer: scene attribute sentences in fixed order
(location, time of day, camera motion via the display label, lighting,
visual styles, mood, sound/music), each conditional on non-emptiness. -/
def sceneItems (st : AppState) : List String :=
  (if st.location != "" then ["Adegan berlangsung di " ++ jsToLower st.location ++ "."] else [])
  ++ (if st.timeOfDay != "" then ["Waktu kejadian adalah " ++ jsToLower st.timeOfDay ++ "."] else [])
  ++ (if st.cameraMotion != "" then
        match cameraMotionTable.find? (fun m => m.1 == st.cameraMotion) with
        | some motion => ["Gerakan kamera: " ++ motion.2 ++ "."]
        | none => []
      else [])
  ++ (if st.lighting != "" then ["Pencahayaan: " ++ jsToLower st.lighting ++ "."] else [])
  ++ (if st.selectedVisualStyles.isEmpty then [] else
        ["Gaya visual video adalah "
          ++ String.intercalate ", " (st.selectedVisualStyles.map (fun s => jsToLower s)) ++ "."])
  ++ (if st.videoMood != "" then ["Suasana video: " ++ jsToLower st.videoMood ++ "."] else [])
  ++ (if st.soundMusic != "" then ["Latar belakang musik/suara: " ++ jsToLower st.soundMusic ++ "."] else [])

/-- The fragment pushed for one global spokenDialogue entry: skipped
when the speaker does not resolve or the sentence is empty; otherwise
the speaker name plus a space, followed by the type-specific rendering
(nothing at all for an unrecognized type). -/
def spokenDialogueFragment (chars : List Character) (sd : SpokenDialogue) : Option String :=
  match findChar chars sd.charId with
  | none => none
  | some speaker =>
    if sd.sentence != "" then
      some (speaker.name ++ " " ++
        (if sd.type == "Ask a question" then
          "bertanya"
          ++ (match findChar chars sd.targetCharId with
              | some t => " kepada " ++ t.name
              | none => "")
          ++ ": \"" ++ sd.sentence ++ "\""
        else if sd.type == "Give an answer" then
          "menjawab"
          ++ (match findChar chars sd.targetCharId with
              | some t => " kepada " ++ t.name
              | none => "")
          ++ ": \"" ++ sd.sentence ++ "\""
        else if sd.type == "Berbicara ke Audiens" then
          "berbicara kepada audiens: \"" ++ sd.sentence ++ "\""
        else ""))
    else none

/-- Step 5 of the composer: the global spoken dialogue fragments in
insertion order. -/
def spokenDialogueItems (st : AppState) : List String :=
  st.spokenDialogue.filterMap (spokenDialogueFragment st.savedCharacters)

/-- Step 6 of the composer: additional details, verbatim. -/
def additionalDetailItems (st : AppState) : List String :=
  if st.additionalDetails != "" then ["Detail tambahan: " ++ st.additionalDetails ++ "."] else []

/-- The full ordered list of sentences pushed by
generateIndonesianPromptText. -/
def promptItems (st : AppState) : List String :=
  mainCalloutItems st ++ introItems st ++ characterActionItems st
    ++ sceneItems st ++ spokenDialogueItems st ++ additionalDetailItems st

/-- generateIndonesianPromptText: the composed narrative, the pushed
sentences joined with a single space. (The source stores the result via
setIndonesianPrompt; the string itself is the value of interest.) -/
def generateIndonesianPromptText (st : AppState) : String :=
  String.intercalate " " (promptItems st)

/-- Character-list substring occurrence test. -/
def containsSub (pat : List Char) : List Char → Bool
  | [] => pat.isEmpty
  | c :: rest => pat.isPrefixOf (c :: rest) || containsSub pat rest

/-- JS includes(): does pat occur inside s. -/
def strContains (s pat : String) : Bool :=
  containsSub pat.data s.data

/-- handleSaveCharacter: rejects an empty name or an unselected type
(state unchanged apart from the modal, which is UI-only and not
modelled); otherwise appends a Character built from the form fields of
the selected kind and clears every form field. The source draws the id
from Date.now(); it is passed in here. -/
def handleSaveCharacter (newId : String) (st : AppState) : AppState :=
  if st.characterName == "" then st
  else
    let details? : Option CharDetails :=
      if st.characterType == "human" then some (CharDetails.human st.humanDetails)
      else if st.characterType == "animal4" then some (CharDetails.animal4 st.animal4Details)
      else if st.characterType == "animal2" then some (CharDetails.animal2 st.animal2Details)
      else if st.characterType == "fantasy" then some (CharDetails.fantasy st.fantasyDetails)
      else none
    match details? with
    | none => st
    | some details =>
      { st with
        savedCharacters := st.savedCharacters ++ [{ id := newId, name := st.characterName, details := details }],
        characterName := "", characterType := "",
        humanDetails := {}, animal4Details := {}, animal2Details := {}, fantasyDetails := "" }

/-- The uncheck branch of the character-selection checkbox (the only
character-removal path the source has): drops the id from
selectedCharactersForActions and filters the entry of that character out of
characterActions. Nothing else — in particular expressions — is
touched. -/
def handleDeselectCharacter (st : AppState) (charId : String) : AppState :=
  { st with
    selectedCharactersForActions := st.selectedCharactersForActions.filter (fun i => i != charId),
    characterActions := st.characterActions.filter (fun a => a.charId != charId) }

/-- handleVisualStyleChange: remove the style when present, append it
otherwise. -/
def handleVisualStyleChange (prevStyles : List String) (style : String) : List String :=
  if prevStyles.contains style then prevStyles.filter (fun s => s != style)
  else prevStyles ++ [style]

/-- handleCharacterActionChange specialised to the action field (the
only field suggestCharacterAction writes): update the first entry for
the charId in place, or append a fresh default entry carrying the
value. Structured as a recursion equivalent to the
findIndex-then-update-else-append of the source. -/
def handleCharacterActionChange : List CharacterAction → String → String → List CharacterAction
  | [], charId, value => [{ charId := charId, action := value, isMain := false, dialogueLines := [] }]
  | a :: rest, charId, value =>
    if a.charId == charId then { a with action := value } :: rest
    else a :: handleCharacterActionChange rest charId value

/-- Writing obj[key] = v on a plain object: replace the existing key in
place or append it. -/
def setFlag : List (String × Bool) → String → Bool → List (String × Bool)
  | [], k, v => [(k, v)]
  | p :: rest, k, v =>
    if p.1 == k then (k, v) :: rest else p :: setFlag rest k v

/-- Association lookup in the loading-flag object. -/
def lookupFlag (l : List (String × Bool)) (k : String) : Option Bool :=
  (l.find? (fun p => p.1 == k)).map (fun p => p.2)

/-- The observable outcome of the fetch in suggestCharacterAction:
a thrown transport error, a non-success status, a success body that
does not match the candidates/content/parts shape, or a success body
whose extracted text is the given string. -/
inductive FetchOutcome where
  | transportThrow
  | httpError (status : Nat)
  | malformedBody
  | ok (text : String)
deriving Repr, DecidableEq

/-- Outcomes the source treats as failures (every branch except the
well-shaped success body). -/
def FetchOutcome.isFailure : FetchOutcome → Bool
  | FetchOutcome.ok _ => false
  | _ => true

/-- suggestCharacterAction(charId) run to completion with the given
fetch outcome: sets the loading flag, looks the character up (bailing
out when absent), on a well-shaped success writes the trimmed text via
handleCharacterActionChange, and in every path finally clears the
loading flag. Modal reporting is UI-only and not modelled. -/
def suggestCharacterAction (st : AppState) (charId : String) (outcome : FetchOutcome) : AppState :=
  let st1 := { st with isLoadingActionSuggestion := setFlag st.isLoadingActionSuggestion charId true }
  match findChar st1.savedCharacters charId with
  | none =>
    { st1 with isLoadingActionSuggestion := setFlag st1.isLoadingActionSuggestion charId false }
  | some _ =>
    let st2 := match outcome with
      | FetchOutcome.ok text =>
        { st1 with characterActions := handleCharacterActionChange st1.characterActions charId (jsTrim text) }
      | _ => st1
    { st2 with isLoadingActionSuggestion := setFlag st2.isLoadingActionSuggestion charId false }

/-- A CharacterAction whose charId resolves to a committed character. -/
def resolvesCA (chars : List Character) (ca : CharacterAction) : Bool :=
  (findChar chars ca.charId).isSome

/-- A SpokenDialogue entry whose charId resolves to a committed
character. -/
def resolvesSD (chars : List Character) (sd : SpokenDialogue) : Bool :=
  (findChar chars sd.charId).isSome

/-! ### Theorems -/


/-! ### Shared helper lemmas -/

/-- Joining a single sentence with spaces is that sentence. -/
theorem intercalate_single (sep x : String) : String.intercalate sep [x] = x := by
  simp [String.intercalate]; rfl

/-- Entries dropped by a filter that only removes filterMap-silent
elements do not change the filterMap image. -/
theorem filterMap_filter_of_none {α β : Type} (p : α → Bool) (f : α → Option β)
    (h : ∀ x, p x = false → f x = none) :
    ∀ l : List α, (l.filter p).filterMap f = l.filterMap f := by
  intro l
  induction l with
  | nil => rfl
  | cons a l ih =>
    by_cases hp : p a
    · simp only [List.filter_cons, hp, if_pos, List.filterMap_cons, ih]
    · simp only [Bool.not_eq_true] at hp
      simp [List.filter_cons, hp, List.filterMap_cons, h a hp, ih]

/-- Entries dropped by a filter that only removes flatMap-silent
elements do not change the flatMap image. -/
theorem flatMap_filter_of_nil {α β : Type} (p : α → Bool) (g : α → List β)
    (h : ∀ x, p x = false → g x = []) :
    ∀ l : List α, (l.filter p).flatMap g = l.flatMap g := by
  intro l
  induction l with
  | nil => rfl
  | cons a l ih =>
    by_cases hp : p a
    · simp only [List.filter_cons, hp, if_pos, List.flatMap_cons, ih]
    · simp only [Bool.not_eq_true] at hp
      simp [List.filter_cons, hp, List.flatMap_cons, h a hp, ih]



/-- An Option whose isSome is false is none. -/
theorem isSome_false_eq_none {α : Type} {x : Option α} (h : x.isSome = false) : x = none := by
  cases x with
  | none => rfl
  | some a => simp at h

/-- C5: compose is a total function of the snapshot (it always returns
a string), and a CharacterAction or SpokenDialogue entry whose charId
does not match any committed Character contributes nothing: deleting
all such dangling entries leaves the composed output unchanged. -/
theorem compose_skips_unresolved_refs (st : AppState) :
    generateIndonesianPromptText
      { st with
        characterActions := st.characterActions.filter (resolvesCA st.savedCharacters),
        spokenDialogue := st.spokenDialogue.filter (resolvesSD st.savedCharacters) }
      = generateIndonesianPromptText st := by
  have hCAnames :
      ∀ l : List CharacterAction,
        (l.filter (resolvesCA st.savedCharacters)).filterMap
            (fun ca => (findChar st.savedCharacters ca.charId).map (fun sc => sc.name))
          = l.filterMap
            (fun ca => (findChar st.savedCharacters ca.charId).map (fun sc => sc.name)) := by
    intro l
    apply filterMap_filter_of_none
    intro ca hca
    unfold resolvesCA at hca
    rw [isSome_false_eq_none hca]
    rfl
  have hmain :
      mainCharacterNames
          { st with
            characterActions := st.characterActions.filter (resolvesCA st.savedCharacters),
            spokenDialogue := st.spokenDialogue.filter (resolvesSD st.savedCharacters) }
        = mainCharacterNames st := by
    unfold mainCharacterNames
    show (((st.characterActions.filter (resolvesCA st.savedCharacters)).filter
        (fun ca => ca.isMain)).filterMap _).filter _ = _
    rw [List.filter_comm]
    rw [hCAnames (st.characterActions.filter (fun ca => ca.isMain))]
  have hactions :
      characterActionItems
          { st with
            characterActions := st.characterActions.filter (resolvesCA st.savedCharacters),
            spokenDialogue := st.spokenDialogue.filter (resolvesSD st.savedCharacters) }
        = characterActionItems st := by
    unfold characterActionItems
    apply flatMap_filter_of_nil
    intro ca hca
    unfold resolvesCA at hca
    rw [isSome_false_eq_none hca]
  have hspoken :
      spokenDialogueItems
          { st with
            characterActions := st.characterActions.filter (resolvesCA st.savedCharacters),
            spokenDialogue := st.spokenDialogue.filter (resolvesSD st.savedCharacters) }
        = spokenDialogueItems st := by
    unfold spokenDialogueItems
    apply filterMap_filter_of_none
    intro sd hsd
    unfold resolvesSD at hsd
    unfold spokenDialogueFragment
    rw [isSome_false_eq_none hsd]
  unfold generateIndonesianPromptText promptItems
  rw [hactions, hspoken]
  unfold mainCalloutItems
  rw [hmain]
  rfl

/-- C6: when the set of isMain CharacterActions resolving to committed
characters is non-empty, the first composed sentence is the callout
naming exactly those characters (in order, joined with the conjunction
dan); when that set is empty the callout step contributes nothing.
The hypothesis that committed characters have non-empty names is the
store invariant handleSaveCharacter enforces by rejecting an empty
characterName. -/
theorem mainCallout_first_sentence (st : AppState)
    (hname : ∀ sc ∈ st.savedCharacters, sc.name ≠ "") :
    ((st.characterActions.filter (fun ca => ca.isMain)).filterMap
        (fun ca => (findChar st.savedCharacters ca.charId).map (fun sc => sc.name)) ≠ [] →
      (promptItems st).head? =
        some ("Karakter utama adalah "
          ++ String.intercalate " dan "
              ((st.characterActions.filter (fun ca => ca.isMain)).filterMap
                (fun ca => (findChar st.savedCharacters ca.charId).map (fun sc => sc.name)))
          ++ "."))
    ∧ ((st.characterActions.filter (fun ca => ca.isMain)).filterMap
        (fun ca => (findChar st.savedCharacters ca.charId).map (fun sc => sc.name)) = [] →
      mainCalloutItems st = []) := by
  have hnames_eq : mainCharacterNames st =
      (st.characterActions.filter (fun ca => ca.isMain)).filterMap
        (fun ca => (findChar st.savedCharacters ca.charId).map (fun sc => sc.name)) := by
    unfold mainCharacterNames
    apply List.filter_eq_self.mpr
    intro n hn
    rw [List.mem_filterMap] at hn
    obtain ⟨ca, hca, hmap⟩ := hn
    cases hfc : findChar st.savedCharacters ca.charId with
    | none => rw [hfc] at hmap; simp at hmap
    | some sc =>
      rw [hfc] at hmap
      simp only [Option.map_some'] at hmap
      have hmem : sc ∈ st.savedCharacters := List.mem_of_find?_eq_some hfc
      have hne := hname sc hmem
      rw [Option.some_inj] at hmap
      subst hmap
      simp [bne_iff_ne, hne]
  constructor
  · intro hne
    have hcallout : mainCalloutItems st =
        ["Karakter utama adalah "
          ++ String.intercalate " dan "
              ((st.characterActions.filter (fun ca => ca.isMain)).filterMap
                (fun ca => (findChar st.savedCharacters ca.charId).map (fun sc => sc.name)))
          ++ "."] := by
      obtain ⟨n, hn⟩ := List.exists_mem_of_ne_nil _ hne
      rw [List.mem_filterMap] at hn
      obtain ⟨ca, hca, hmap⟩ := hn
      cases hfc : findChar st.savedCharacters ca.charId with
      | none => rw [hfc] at hmap; simp at hmap
      | some sc =>
        have hmem : sc ∈ st.savedCharacters := List.mem_of_find?_eq_some hfc
        have hchars : st.savedCharacters ≠ [] := by
          intro h
          rw [h] at hmem
          exact absurd hmem (List.not_mem_nil sc)
        unfold mainCalloutItems
        rw [hnames_eq]
        simp [List.isEmpty_iff, hchars, hne]
    unfold promptItems
    rw [hcallout]
    simp
  · intro heq
    unfold mainCalloutItems
    rw [hnames_eq, heq]
    simp

/-- C6 witness (Scenario C): two committed characters, only the second
marked isMain; the first composed sentence names exactly that one. -/
theorem mainCallout_first_sentence_witness :
    (promptItems
      { savedCharacters :=
          [{ id := "1", name := "Aria", details := CharDetails.human {} },
           { id := "2", name := "Bob", details := CharDetails.human {} }],
        characterActions := [{ charId := "2", action := "berlari", isMain := true }] }).head?
      = some "Karakter utama adalah Bob." :=
  ((mainCallout_first_sentence
      { savedCharacters :=
          [{ id := "1", name := "Aria", details := CharDetails.human {} },
           { id := "2", name := "Bob", details := CharDetails.human {} }],
        characterActions := [{ charId := "2", action := "berlari", isMain := true }] }
      (by decide)).1 (by decide)).trans rfl

/-- C7: two parts. For every snapshot and every committed Human
character (at any position i of the store), the introduction item the
composer emits for that character is exactly: the name, the Human
article seorang, the word manusia, then the optional clauses in the
fixed order gender, age, skin color, body type/posture, clothing,
additional detail — each present exactly when the field is non-empty
and lower-cased when present. And a snapshot holding a single Human
with only gender and age set (Scenario A) composes to exactly that one
sentence and nothing else. -/
theorem humanIntro_fixed_clause_order :
    (∀ (st : AppState) (i : Nat) (ch : Character) (d : HumanDetails),
      st.savedCharacters[i]? = some ch →
      ch.details = CharDetails.human d →
      (introItems st)[i]? = some
        (ch.name ++ " adalah seorang manusia "
          ++ (if d.gender != "" then jsToLower d.gender else "")
          ++ (if d.age != "" then " berusia " ++ jsToLower d.age else "")
          ++ (if d.skinColor != "" then " dengan kulit " ++ jsToLower d.skinColor else "")
          ++ (if d.bodyTypePosture != "" then " berbadan " ++ jsToLower d.bodyTypePosture else "")
          ++ (if d.clothingAccessories != "" then
                " mengenakan " ++ jsToLower d.clothingAccessories else "")
          ++ (if d.additionalDetail != "" then ", " ++ jsToLower d.additionalDetail else "")
          ++ "."))
    ∧ (∀ (i nm g a : String), g ≠ "" → a ≠ "" →
      generateIndonesianPromptText
        { savedCharacters :=
            [{ id := i, name := nm, details := CharDetails.human { gender := g, age := a } }] }
        = nm ++ " adalah seorang manusia " ++ jsToLower g ++ " berusia " ++ jsToLower a ++ ".") := by
  constructor
  · intro st i ch d hch hd
    have hne : st.savedCharacters ≠ [] := by
      intro h
      rw [h] at hch
      simp at hch
    unfold introItems
    rw [if_neg (by simp [List.isEmpty_iff, hne])]
    rw [List.getElem?_map, hch]
    simp only [Option.map_some']
    unfold charIntro
    rw [hd]
    simp only [Option.some.injEq]
    apply String.ext
    simp [String.data_append]
  · intro i nm g a hg ha
    unfold generateIndonesianPromptText promptItems mainCalloutItems mainCharacterNames introItems
      characterActionItems sceneItems spokenDialogueItems additionalDetailItems
    simp only [List.filter_nil, List.filterMap_nil, List.flatMap_nil, List.isEmpty_cons,
      List.isEmpty_nil, bne_self_eq_false, Bool.false_eq_true, if_false, if_true, List.map_cons,
      List.map_nil, List.append_nil, List.nil_append, ite_self]
    rw [intercalate_single]
    unfold charIntro
    simp [hg, ha]
    apply String.ext
    simp [String.data_append]

/-- C7 witness: the general clause-order part applied to Aria at
position 0, and the Scenario A composition. -/
theorem humanIntro_fixed_clause_order_witness :
    (introItems
        { savedCharacters :=
            [{ id := "1", name := "Aria",
               details := CharDetails.human { gender := "Female", age := "25 tahun" } }] })[0]?
      = some "Aria adalah seorang manusia female berusia 25 tahun."
    ∧ generateIndonesianPromptText
        { savedCharacters :=
            [{ id := "1", name := "Aria",
               details := CharDetails.human { gender := "Female", age := "25 tahun" } }] }
      = "Aria adalah seorang manusia female berusia 25 tahun." :=
  ⟨(humanIntro_fixed_clause_order.1
      { savedCharacters :=
          [{ id := "1", name := "Aria",
             details := CharDetails.human { gender := "Female", age := "25 tahun" } }] }
      0
      { id := "1", name := "Aria",
        details := CharDetails.human { gender := "Female", age := "25 tahun" } }
      { gender := "Female", age := "25 tahun" }
      rfl rfl).trans (by decide),
   (humanIntro_fixed_clause_order.2 "1" "Aria" "Female" "25 tahun"
      (by decide) (by decide)).trans (by decide)⟩

/-- C4: an embedded dialogue line of the address-audience type with a
non-empty sentence is rendered exactly as an answer line: the
answer verb menjawab, the speaker name and the quoted sentence, with
no audience-specific labeling. -/
theorem embedded_audience_rendered_as_answer (n s t : String) (hs : s ≠ "") :
    embeddedDialogueFragment n { type := "Berbicara ke Audiens", sentence := s, targetCharId := t }
      = embeddedDialogueFragment n { type := "Give an answer", sentence := s, targetCharId := t }
    ∧ embeddedDialogueFragment n { type := "Berbicara ke Audiens", sentence := s, targetCharId := t }
      = some (n ++ " menjawab: \"" ++ s ++ "\"") := by
  constructor
  · simp [embeddedDialogueFragment, hs]
  · simp [embeddedDialogueFragment, hs]
    apply String.ext
    simp [String.data_append]

/-- C4 witness: a concrete audience-addressed line. -/
theorem embedded_audience_rendered_as_answer_witness :
    embeddedDialogueFragment "Aria"
        { type := "Berbicara ke Audiens", sentence := "Halo semua", targetCharId := "" }
      = embeddedDialogueFragment "Aria"
        { type := "Give an answer", sentence := "Halo semua", targetCharId := "" }
    ∧ embeddedDialogueFragment "Aria"
        { type := "Berbicara ke Audiens", sentence := "Halo semua", targetCharId := "" }
      = some "Aria menjawab: \"Halo semua\"" :=
  ⟨(embedded_audience_rendered_as_answer "Aria" "Halo semua" "" (by decide)).1,
   ((embedded_audience_rendered_as_answer "Aria" "Halo semua" "" (by decide)).2).trans rfl⟩

/-- C10: a global SpokenDialogue entry whose speaker resolves and whose
sentence is non-empty but whose type is none of the three recognized
values still contributes a fragment: exactly the speaker name followed
by a single space, with no verb and no quoted sentence. -/
theorem spoken_unknown_type_name_only (chars : List Character) (sd : SpokenDialogue)
    (speaker : Character)
    (hfind : findChar chars sd.charId = some speaker) (hs : sd.sentence ≠ "")
    (ht1 : sd.type ≠ "Ask a question") (ht2 : sd.type ≠ "Give an answer")
    (ht3 : sd.type ≠ "Berbicara ke Audiens") :
    spokenDialogueFragment chars sd = some (speaker.name ++ " ") := by
  unfold spokenDialogueFragment
  rw [hfind]
  simp [hs, ht1, ht2, ht3]

/-- C10 witness: the default empty type on a resolved speaker. -/
theorem spoken_unknown_type_name_only_witness :
    spokenDialogueFragment [{ id := "1", name := "Aria", details := CharDetails.human {} }]
        { charId := "1", type := "", sentence := "Halo", targetCharId := "" }
      = some "Aria " :=
  spoken_unknown_type_name_only
    [{ id := "1", name := "Aria", details := CharDetails.human {} }]
    { charId := "1", type := "", sentence := "Halo", targetCharId := "" }
    { id := "1", name := "Aria", details := CharDetails.human {} }
    rfl (by decide) (by decide) (by decide) (by decide)

/-- C9: compose is a pure function of the snapshot — two invocations on
the same snapshot (which includes every piece of state the composer
reads, notably the transient animal2 form object) return byte-identical
strings. -/
theorem compose_deterministic (s1 s2 : AppState) (h : s1 = s2) :
    generateIndonesianPromptText s1 = generateIndonesianPromptText s2 := by
  rw [h]

/-- C9 witness: two calls on one concrete snapshot. -/
theorem compose_deterministic_witness :
    generateIndonesianPromptText
        { savedCharacters := [{ id := "1", name := "Aria", details := CharDetails.human {} }],
          location := "pantai" }
      = generateIndonesianPromptText
        { savedCharacters := [{ id := "1", name := "Aria", details := CharDetails.human {} }],
          location := "pantai" } :=
  compose_deterministic
    { savedCharacters := [{ id := "1", name := "Aria", details := CharDetails.human {} }],
      location := "pantai" }
    { savedCharacters := [{ id := "1", name := "Aria", details := CharDetails.human {} }],
      location := "pantai" }
    rfl

/-- C8: handleVisualStyleChange is symmetric difference with the
singleton on membership: the toggled style flips its membership, every
other style keeps its membership, and toggling twice restores the
original membership. -/
theorem toggleVisualStyle_symmetric_difference (l : List String) (s x : String) :
    (x ∈ handleVisualStyleChange l s ↔ (if x = s then s ∉ l else x ∈ l))
    ∧ (x ∈ handleVisualStyleChange (handleVisualStyleChange l s) s ↔ x ∈ l) := by
  have hmem : ∀ (m : List String),
      x ∈ handleVisualStyleChange m s ↔ (if x = s then s ∉ m else x ∈ m) := by
    intro m
    unfold handleVisualStyleChange
    by_cases hc : s ∈ m
    · rw [if_pos (by rwa [List.elem_iff])]
      by_cases hx : x = s
      · subst hx
        simp [List.mem_filter, hc]
      · simp [List.mem_filter, hx, bne_iff_ne]
    · rw [if_neg (by rwa [List.elem_iff])]
      by_cases hx : x = s
      · subst hx
        simp [List.mem_append, hc]
      · simp [List.mem_append, hx]
  refine ⟨hmem l, ?_⟩
  rw [hmem (handleVisualStyleChange l s)]
  by_cases hx : x = s
  · subst hx
    rw [if_pos rfl, hmem l, if_pos rfl]
    by_cases hc : x ∈ l <;> simp [hc]
  · rw [if_neg hx, hmem l, if_neg hx]

/-- C2 counterexample: a concrete store holding one character with a
CharacterAction entry and an expression entry; running the removal path
removes the CharacterAction entry but the expression mapping entry is
still present afterward, contradicting the claim that it is removed. -/
theorem removal_keeps_expression_entry :
    ((handleDeselectCharacter
        { savedCharacters := [{ id := "c1", name := "Aria", details := CharDetails.human {} }],
          selectedCharactersForActions := ["c1"],
          characterActions := [{ charId := "c1", action := "berlari" }],
          expressions := [("c1", "Happy")] } "c1").characterActions.find?
        (fun a => a.charId == "c1") = none)
    ∧ ¬ (lookupStr (handleDeselectCharacter
        { savedCharacters := [{ id := "c1", name := "Aria", details := CharDetails.human {} }],
          selectedCharactersForActions := ["c1"],
          characterActions := [{ charId := "c1", action := "berlari" }],
          expressions := [("c1", "Happy")] } "c1").expressions "c1" = none)
    ∧ lookupStr (handleDeselectCharacter
        { savedCharacters := [{ id := "c1", name := "Aria", details := CharDetails.human {} }],
          selectedCharactersForActions := ["c1"],
          characterActions := [{ charId := "c1", action := "berlari" }],
          expressions := [("c1", "Happy")] } "c1").expressions "c1" = some "Happy" := by
  refine ⟨rfl, ?_, rfl⟩
  intro h
  simp [handleDeselectCharacter, lookupStr] at h

/-- C2 amended: removing a Character (the deselect path, the only
removal the source has) removes the CharacterAction entry of that character
and its selection, but leaves the expression mapping untouched. -/
theorem removal_cascades_action_not_expression (st : AppState) (charId : String) :
    ((handleDeselectCharacter st charId).characterActions.find?
        (fun a => a.charId == charId) = none)
    ∧ (handleDeselectCharacter st charId).expressions = st.expressions
    ∧ charId ∉ (handleDeselectCharacter st charId).selectedCharactersForActions := by
  refine ⟨?_, rfl, ?_⟩
  · rw [List.find?_eq_none]
    intro a ha
    rw [handleDeselectCharacter] at ha
    simp only [List.mem_filter] at ha
    simpa using ha.2
  · intro hmem
    rw [handleDeselectCharacter] at hmem
    simp only [List.mem_filter] at hmem
    simpa using hmem.2

/-- Setting the same key twice on a flag object keeps only the last
value. -/
theorem setFlag_setFlag (m : List (String × Bool)) (k : String) (v1 v2 : Bool) :
    setFlag (setFlag m k v1) k v2 = setFlag m k v2 := by
  induction m with
  | nil => simp [setFlag]
  | cons p rest ih =>
    by_cases hp : (p.1 == k) = true
    · simp [setFlag, hp]
    · simp [setFlag, hp, ih]

/-- The action value written by handleCharacterActionChange is read
back by the keyed lookup. -/
theorem find?_handleCharacterActionChange (acts : List CharacterAction) (c v : String) :
    ((handleCharacterActionChange acts c v).find? (fun a => a.charId == c)).map
      (fun a => a.action) = some v := by
  induction acts with
  | nil => simp [handleCharacterActionChange]
  | cons a rest ih =>
    by_cases hp : (a.charId == c) = true
    · simp [handleCharacterActionChange, hp, List.find?_cons]
    · simp [handleCharacterActionChange, hp, List.find?_cons, ih]

/-- C3: for a committed character, a successful suggestion writes the
trimmed service text into the CharacterAction.action of that character
(creating a default entry when absent) and changes nothing else beyond
the loading flag; every failure outcome — thrown transport error,
non-success status, malformed body — leaves the store unchanged except
for clearing the loading flag of that character. -/
theorem suggestCharacterAction_success_failure (st : AppState) (charId : String)
    (outcome : FetchOutcome) (ch : Character)
    (hfind : findChar st.savedCharacters charId = some ch) :
    (∀ text, outcome = FetchOutcome.ok text →
      suggestCharacterAction st charId outcome =
        { st with
          characterActions := handleCharacterActionChange st.characterActions charId (jsTrim text),
          isLoadingActionSuggestion := setFlag st.isLoadingActionSuggestion charId false }
      ∧ (((suggestCharacterAction st charId outcome).characterActions.find?
            (fun a => a.charId == charId)).map (fun a => a.action) = some (jsTrim text)))
    ∧ (outcome.isFailure = true →
      suggestCharacterAction st charId outcome =
        { st with isLoadingActionSuggestion := setFlag st.isLoadingActionSuggestion charId false }) := by
  have hunfold :
      suggestCharacterAction st charId outcome =
        (match outcome with
          | FetchOutcome.ok text =>
            { st with
              characterActions := handleCharacterActionChange st.characterActions charId (jsTrim text),
              isLoadingActionSuggestion :=
                setFlag (setFlag st.isLoadingActionSuggestion charId true) charId false }
          | _ =>
            { st with
              isLoadingActionSuggestion :=
                setFlag (setFlag st.isLoadingActionSuggestion charId true) charId false }) := by
    unfold suggestCharacterAction
    simp only [hfind]
    cases outcome <;> rfl
  constructor
  · intro text hok
    subst hok
    rw [hunfold]
    refine ⟨by simp [setFlag_setFlag], ?_⟩
    simp only [setFlag_setFlag]
    exact find?_handleCharacterActionChange st.characterActions charId (jsTrim text)
  · intro hfail
    rw [hunfold]
    cases outcome with
    | ok text => simp [FetchOutcome.isFailure] at hfail
    | transportThrow => simp [setFlag_setFlag]
    | httpError status => simp [setFlag_setFlag]
    | malformedBody => simp [setFlag_setFlag]

/-- C3 witness: one committed character; a success writes the trimmed
text, a 500 failure leaves everything but the cleared loading flag. -/
theorem suggestCharacterAction_success_failure_witness :
    (((suggestCharacterAction
          { savedCharacters := [{ id := "1", name := "Aria", details := CharDetails.human {} }],
            characterActions := [{ charId := "1", action := "tidur" }] }
          "1" (FetchOutcome.ok "  berlari cepat ")).characterActions.find?
        (fun a => a.charId == "1")).map (fun a => a.action) = some "berlari cepat")
    ∧ suggestCharacterAction
        { savedCharacters := [{ id := "1", name := "Aria", details := CharDetails.human {} }],
          characterActions := [{ charId := "1", action := "tidur" }] }
        "1" (FetchOutcome.httpError 500)
      = { savedCharacters := [{ id := "1", name := "Aria", details := CharDetails.human {} }],
          characterActions := [{ charId := "1", action := "tidur" }],
          isLoadingActionSuggestion := [("1", false)] } :=
  ⟨(((suggestCharacterAction_success_failure
        { savedCharacters := [{ id := "1", name := "Aria", details := CharDetails.human {} }],
          characterActions := [{ charId := "1", action := "tidur" }] }
        "1" (FetchOutcome.ok "  berlari cepat ")
        { id := "1", name := "Aria", details := CharDetails.human {} }
        rfl).1 "  berlari cepat " rfl).2).trans (by decide),
   ((suggestCharacterAction_success_failure
        { savedCharacters := [{ id := "1", name := "Aria", details := CharDetails.human {} }],
          characterActions := [{ charId := "1", action := "tidur" }] }
        "1" (FetchOutcome.httpError 500)
        { id := "1", name := "Aria", details := CharDetails.human {} }
        rfl).2 rfl).trans (by decide)⟩

/-- C1 (code bug at the failing input): saving the BipedAnimal Bruno
stores the age descriptor in the saved details of the character and clears the
form; compose then resolves the descriptor through the cleared
transient form field animal2Details.age instead of the saved
details.age, so the introduction lacks the parenthesized descriptor —
while re-populating only the transient form field makes the very same
parenthesized descriptor appear. -/
theorem scenarioB_descriptor_lost_on_save :
    ((handleSaveCharacter "7"
        { characterName := "Bruno", characterType := "animal2",
          animal2Details :=
            { animalType := "Beruang",
              age := "toddler-style, playful and chubby, short legs" } }).savedCharacters
      = [{ id := "7", name := "Bruno",
           details := CharDetails.animal2
             { animalType := "Beruang",
               age := "toddler-style, playful and chubby, short legs" } }])
    ∧ generateIndonesianPromptText
        (handleSaveCharacter "7"
          { characterName := "Bruno", characterType := "animal2",
            animal2Details :=
              { animalType := "Beruang",
                age := "toddler-style, playful and chubby, short legs" } })
      = "Bruno adalah seekor hewan beruang berjalan dengan dua kaki."
    ∧ strContains
        (generateIndonesianPromptText
          (handleSaveCharacter "7"
            { characterName := "Bruno", characterType := "animal2",
              animal2Details :=
                { animalType := "Beruang",
                  age := "toddler-style, playful and chubby, short legs" } }))
        "(toddler-style, playful and chubby, short legs)" = false
    ∧ strContains
        (generateIndonesianPromptText
          { handleSaveCharacter "7"
              { characterName := "Bruno", characterType := "animal2",
                animal2Details :=
                  { animalType := "Beruang",
                    age := "toddler-style, playful and chubby, short legs" } } with
            animal2Details := { age := "toddler-style, playful and chubby, short legs" } })
        "(toddler-style, playful and chubby, short legs)" = true := by
  refine ⟨rfl, by decide, by decide, by decide⟩

end Veo3
